import Mathlib

/-!
Shallow embedding of src/user_space/main.c (single-shot V4L2 image capture
for the OV5647 camera).  The C program is a strictly sequential chain of
device operations on a file-static `camera_params` structure; every failed
operation prints a diagnostic with perror and calls exit(1).

The embedding models each syscall and ioctl outcome through an `Env` oracle
(what the kernel / filesystem would answer), threads the program state
`St` explicitly, and records an `Event` trace of every request issued, the
stderr and stdout output, and the contents of the image sink file.  A step
function returns `Except St St`: the error branch is the exit(1) path,
carrying the state at the moment of termination.
-/

namespace OV5647

/-- Path constant from main.c: where the captured image is saved. -/
def IMAGE_CAPTURE_SAVE_PATH : String := "/home/pi/captured_frame_raw.jpeg"

/-- Path constant from main.c: the camera device node. -/
def CAMERA_DEV_PATH : String := "/dev/video0"

/-- Value of V4L2_BUF_TYPE_VIDEO_CAPTURE in linux/videodev2.h. -/
def V4L2_BUF_TYPE_VIDEO_CAPTURE : Nat := 1

/-- Value of V4L2_MEMORY_MMAP in linux/videodev2.h. -/
def V4L2_MEMORY_MMAP : Nat := 1

/-- Value of V4L2_PIX_FMT_MJPEG, the fourcc of M J P G. -/
def V4L2_PIX_FMT_MJPEG : Nat := 1196444237

/-- Value of V4L2_COLORSPACE_REC709 in linux/videodev2.h. -/
def V4L2_COLORSPACE_REC709 : Nat := 3

/-- The pixel-format part of struct v4l2_format (fields main.c touches). -/
structure V4l2PixFormat where
  width : Nat
  height : Nat
  pixelformat : Nat
  colorspace : Nat
deriving Repr, DecidableEq

/-- Struct v4l2_format (fields main.c touches). -/
structure V4l2Format where
  type : Nat
  pix : V4l2PixFormat
deriving Repr, DecidableEq

/-- Struct v4l2_requestbuffers (fields main.c touches). -/
structure V4l2RequestBuffers where
  count : Nat
  type : Nat
  memory : Nat
deriving Repr, DecidableEq

/-- Struct v4l2_buffer (fields main.c touches).  The field m_offset models
the union member buffer.m.offset. -/
structure V4l2Buffer where
  index : Nat
  type : Nat
  memory : Nat
  length : Nat
  m_offset : Nat
deriving Repr, DecidableEq

/-- The file-static struct camera_params_t of main.c.  The void pointer
buffer_start is modelled by the byte contents of the mapped region
(empty list while nothing is mapped). -/
structure CameraParams where
  device_fs : Int
  capture_format : V4l2Format
  buffer_request : V4l2RequestBuffers
  buffer : V4l2Buffer
  buffer_start : List Nat
deriving Repr, DecidableEq

/-- Zero initialization of the file-static camera_params (C statics start
zeroed). -/
def initParams : CameraParams :=
  { device_fs := 0
  , capture_format := { type := 0, pix := { width := 0, height := 0, pixelformat := 0, colorspace := 0 } }
  , buffer_request := { count := 0, type := 0, memory := 0 }
  , buffer := { index := 0, type := 0, memory := 0, length := 0, m_offset := 0 }
  , buffer_start := [] }

/-- One observable request issued by the program, with the payload fields
relevant to the claims. -/
inductive Event where
  | openDev : Event
  | sFmt (width height pixelformat colorspace : Nat) : Event
  | reqbufs (btype memory count : Nat) : Event
  | querybuf (index : Nat) : Event
  | mmapCall (length offset : Nat) : Event
  | streamOn (btype : Nat) : Event
  | qbuf (index : Nat) : Event
  | dqbuf (index : Nat) : Event
  | streamOff (btype : Nat) : Event
  | sinkOpen : Event
  | sinkWrite (count : Nat) : Event
  | closeDev : Event
deriving Repr, DecidableEq

/-- Oracle for the outcomes of all syscalls and ioctls the program issues:
the file descriptor returned by open, the success of each ioctl, the
driver-reported buffer geometry from VIDIOC_QUERYBUF, the buffer length
rewritten by VIDIOC_DQBUF, the bytes the driver deposits in the mapped
region, and the outcomes at the image sink. -/
structure Env where
  openRet : Int
  sFmtOk : Bool
  reqbufsOk : Bool
  querybufOk : Bool
  querybufLength : Nat
  querybufOffset : Nat
  mmapOk : Bool
  streamonOk : Bool
  qbufOk : Bool
  dqbufOk : Bool
  dqbufLength : Nat
  frameData : List Nat
  streamoffOk : Bool
  sinkOpenOk : Bool
  writeOk : Bool
deriving Repr, DecidableEq

/-- Full program state: the camera_params struct, whether the device handle
is currently open, the trace of issued requests, the stderr and stdout
lines, and the image sink file (none while the file does not exist). -/
structure St where
  camera_params : CameraParams
  deviceOpen : Bool
  events : List Event
  stderrLog : List String
  stdoutLog : List String
  imageFile : Option (List Nat)
deriving Repr, DecidableEq

/-- Initial process state with a given pre-existing sink file. -/
def initSt (f0 : Option (List Nat)) : St :=
  { camera_params := initParams
  , deviceOpen := false
  , events := []
  , stderrLog := []
  , stdoutLog := []
  , imageFile := f0 }

/-- Append a stderr line (models perror). -/
def pushErr (s : St) (msg : String) : St :=
  { s with stderrLog := s.stderrLog ++ [msg] }

/-- Record an issued request in the trace. -/
def pushEvent (s : St) (e : Event) : St :=
  { s with events := s.events ++ [e] }

/-- Overwrite the first bytes of a memory region with new data, keeping the
region length fixed (a device driver fills the frame from the start of the
mapped buffer). -/
def writeBytesAtStart (region new : List Nat) : List Nat :=
  new.take region.length ++ region.drop new.length

/-- Embedding of open_camera_device: open(CAMERA_DEV_PATH, O_RDWR), exit(1)
with a diagnostic when the descriptor is negative. -/
def open_camera_device (env : Env) (s : St) : Except St St :=
  let s := pushEvent
    { s with camera_params := { s.camera_params with device_fs := env.openRet } }
    Event.openDev
  if env.openRet < 0 then
    Except.error (pushErr s ("Error opening " ++ CAMERA_DEV_PATH ++ "\n"))
  else
    Except.ok { s with deviceOpen := true }

/-- Embedding of close_camera_device: close(device_fs), result ignored. -/
def close_camera_device (s : St) : St :=
  pushEvent { s with deviceOpen := false } Event.closeDev

/-- Embedding of set_video_format: fixed 1920 by 1080 MJPEG REC709 format,
VIDIOC_S_FMT, exit(1) on failure. -/
def set_video_format (env : Env) (s : St) : Except St St :=
  let fmt : V4l2Format :=
    { type := V4L2_BUF_TYPE_VIDEO_CAPTURE
    , pix := { width := 1920, height := 1080
             , pixelformat := V4L2_PIX_FMT_MJPEG
             , colorspace := V4L2_COLORSPACE_REC709 } }
  let s := pushEvent
    { s with camera_params := { s.camera_params with capture_format := fmt } }
    (Event.sFmt 1920 1080 V4L2_PIX_FMT_MJPEG V4L2_COLORSPACE_REC709)
  if env.sFmtOk then Except.ok s
  else Except.error (pushErr s "VIDIOC_S_FMT")

/-- Embedding of request_buffer: VIDIOC_REQBUFS with capture type, mmap
memory, count one; exit(1) on failure. -/
def request_buffer (env : Env) (s : St) : Except St St :=
  let br : V4l2RequestBuffers :=
    { count := 1, type := V4L2_BUF_TYPE_VIDEO_CAPTURE, memory := V4L2_MEMORY_MMAP }
  let s := pushEvent
    { s with camera_params := { s.camera_params with buffer_request := br } }
    (Event.reqbufs V4L2_BUF_TYPE_VIDEO_CAPTURE V4L2_MEMORY_MMAP 1)
  if env.reqbufsOk then Except.ok s
  else Except.error (pushErr s "VIDIOC_REQBUFS")

/-- Embedding of allocate_buffer: memset the buffer descriptor to zero, set
type, memory and index zero, VIDIOC_QUERYBUF, then mmap the reported length
at the reported offset and memset the region to zero; exit(1) on either
failure. -/
def allocate_buffer (env : Env) (s : St) : Except St St :=
  let buf0 : V4l2Buffer :=
    { index := 0, type := V4L2_BUF_TYPE_VIDEO_CAPTURE, memory := V4L2_MEMORY_MMAP
    , length := 0, m_offset := 0 }
  let s := pushEvent
    { s with camera_params := { s.camera_params with buffer := buf0 } }
    (Event.querybuf 0)
  if env.querybufOk then
    let buf1 : V4l2Buffer :=
      { buf0 with length := env.querybufLength, m_offset := env.querybufOffset }
    let s := pushEvent
      { s with camera_params := { s.camera_params with buffer := buf1 } }
      (Event.mmapCall env.querybufLength env.querybufOffset)
    if env.mmapOk then
      Except.ok { s with camera_params :=
        { s.camera_params with buffer_start := List.replicate env.querybufLength 0 } }
    else
      Except.error (pushErr s "Failure on mmap, exiting...\n")
  else
    Except.error (pushErr s "Failure on VIDIOC_QUERYBUF, exiting...\n")

/-- Embedding of activate_streaming: memset the buffer descriptor to zero,
set type, memory and index zero, then VIDIOC_STREAMON with the buffer type;
exit(1) on failure. -/
def activate_streaming (env : Env) (s : St) : Except St St :=
  let buf0 : V4l2Buffer :=
    { index := 0, type := V4L2_BUF_TYPE_VIDEO_CAPTURE, memory := V4L2_MEMORY_MMAP
    , length := 0, m_offset := 0 }
  let s := pushEvent
    { s with camera_params := { s.camera_params with buffer := buf0 } }
    (Event.streamOn V4L2_BUF_TYPE_VIDEO_CAPTURE)
  if env.streamonOk then Except.ok s
  else Except.error (pushErr s "VIDIOC_STREAMON")

/-- Embedding of get_frame: VIDIOC_QBUF then VIDIOC_DQBUF on the current
buffer descriptor.  On dequeue success the driver rewrites the length field
and has filled the mapped region.  The source perror string in the dequeue
failure branch is the literal "VIDIOC_QBUF", exactly as in main.c. -/
def get_frame (env : Env) (s : St) : Except St St :=
  let s := pushEvent s (Event.qbuf s.camera_params.buffer.index)
  if env.qbufOk then
    let s := pushEvent s (Event.dqbuf s.camera_params.buffer.index)
    if env.dqbufOk then
      Except.ok { s with camera_params :=
        { s.camera_params with
            buffer := { s.camera_params.buffer with length := env.dqbufLength }
          , buffer_start := writeBytesAtStart s.camera_params.buffer_start env.frameData } }
    else
      Except.error (pushErr s "VIDIOC_QBUF")
  else
    Except.error (pushErr s "VIDIOC_QBUF")

/-- Embedding of deactivate_streaming: VIDIOC_STREAMOFF with the buffer
type; exit(1) on failure. -/
def deactivate_streaming (env : Env) (s : St) : Except St St :=
  let s := pushEvent s (Event.streamOff s.camera_params.buffer.type)
  if env.streamoffOk then Except.ok s
  else Except.error (pushErr s "VIDIOC_STREAMOFF")

/-- Embedding of save_to_image: open the output path with O_WRONLY and
O_CREAT (no truncation), exit(1) when the descriptor is invalid, then
write buffer.length bytes from buffer_start and close the descriptor; the
return value of write is ignored by the source.  When buffer.length exceeds
the mapped region the C program would read out of bounds; the model writes
the bytes that exist in the region. -/
def save_to_image (env : Env) (s : St) : Except St St :=
  let s := pushEvent s Event.sinkOpen
  if env.sinkOpenOk then
    let old : List Nat := s.imageFile.getD []
    let s := { s with imageFile := some old }
    let count := s.camera_params.buffer.length
    let s := pushEvent s (Event.sinkWrite count)
    if env.writeOk then
      let written := s.camera_params.buffer_start.take count
      Except.ok { s with imageFile := some (written ++ old.drop written.length) }
    else
      Except.ok s
  else
    Except.error (pushErr s "open")

/-- Embedding of main: the sequential chain of all session operations.  The
result is the process exit code paired with the final state; an error from
any step is the exit(1) path, a full success closes the device, prints the
success line and returns EXIT_SUCCESS. -/
def main_run (env : Env) (f0 : Option (List Nat)) : Nat × St :=
  match open_camera_device env (initSt f0) with
  | Except.error s => (1, s)
  | Except.ok s =>
  match set_video_format env s with
  | Except.error s => (1, s)
  | Except.ok s =>
  match request_buffer env s with
  | Except.error s => (1, s)
  | Except.ok s =>
  match allocate_buffer env s with
  | Except.error s => (1, s)
  | Except.ok s =>
  match activate_streaming env s with
  | Except.error s => (1, s)
  | Except.ok s =>
  match get_frame env s with
  | Except.error s => (1, s)
  | Except.ok s =>
  match deactivate_streaming env s with
  | Except.error s => (1, s)
  | Except.ok s =>
  match save_to_image env s with
  | Except.error s => (1, s)
  | Except.ok s =>
    let s := close_camera_device s
    (0, { s with stdoutLog := s.stdoutLog ++
           ["Image capture successful, saved to " ++ IMAGE_CAPTURE_SAVE_PATH ++ "\n"] })

/-- The trace of a fully successful run, in order, each request once. -/
def fullTrace (env : Env) : List Event :=
  [ Event.openDev
  , Event.sFmt 1920 1080 V4L2_PIX_FMT_MJPEG V4L2_COLORSPACE_REC709
  , Event.reqbufs V4L2_BUF_TYPE_VIDEO_CAPTURE V4L2_MEMORY_MMAP 1
  , Event.querybuf 0
  , Event.mmapCall env.querybufLength env.querybufOffset
  , Event.streamOn V4L2_BUF_TYPE_VIDEO_CAPTURE
  , Event.qbuf 0
  , Event.dqbuf 0
  , Event.streamOff V4L2_BUF_TYPE_VIDEO_CAPTURE
  , Event.sinkOpen
  , Event.sinkWrite env.dqbufLength
  , Event.closeDev ]

/-- All steps that gate termination succeed (the write result is ignored by
the program, so writeOk does not appear). -/
def allOk (env : Env) : Prop :=
  0 ≤ env.openRet ∧ env.sFmtOk = true ∧ env.reqbufsOk = true ∧
  env.querybufOk = true ∧ env.mmapOk = true ∧ env.streamonOk = true ∧
  env.qbufOk = true ∧ env.dqbufOk = true ∧ env.streamoffOk = true ∧
  env.sinkOpenOk = true

instance (env : Env) : Decidable (allOk env) := by
  unfold allOk; infer_instance


/-- A nominal environment in which every syscall succeeds: descriptor 3,
driver reports a buffer of four bytes at offset eight, the dequeued frame
holds three bytes. -/
def envNominal : Env :=
  { openRet := 3, sFmtOk := true, reqbufsOk := true, querybufOk := true
  , querybufLength := 4, querybufOffset := 8, mmapOk := true, streamonOk := true
  , qbufOk := true, dqbufOk := true, dqbufLength := 3, frameData := [10, 20, 30]
  , streamoffOk := true, sinkOpenOk := true, writeOk := true }

/-- The nominal environment with an unreachable device path. -/
def envFailOpen : Env := { envNominal with openRet := -1 }

/-- The nominal environment where VIDIOC_QUERYBUF fails. -/
def envQuerybufFail : Env := { envNominal with querybufOk := false }

/-- The nominal environment where VIDIOC_QBUF fails. -/
def envQbufFail : Env := { envNominal with qbufOk := false }

/-- The nominal environment where VIDIOC_DQBUF fails. -/
def envDqbufFail : Env := { envNominal with dqbufOk := false }

/-- The nominal environment where the write syscall at the image sink
fails. -/
def envWriteFail : Env := { envNominal with writeOk := false }

/-- The nominal environment where opening the image sink path fails. -/
def envSinkOpenFail : Env := { envNominal with sinkOpenOk := false }

/-- Extract the state carried by either branch of a step result. -/
def okState (r : Except St St) : St :=
  match r with
  | Except.ok s => s
  | Except.error s => s

/-- The setup phase of main up to and including allocate_buffer: the state
reached immediately after query-and-map succeeds and before any streaming
request is issued. -/
def stateAfterMap (env : Env) (f0 : Option (List Nat)) : Except St St :=
  match open_camera_device env (initSt f0) with
  | Except.error s => Except.error s
  | Except.ok s =>
  match set_video_format env s with
  | Except.error s => Except.error s
  | Except.ok s =>
  match request_buffer env s with
  | Except.error s => Except.error s
  | Except.ok s => allocate_buffer env s

/-- The state after the successful setup phase in the nominal environment. -/
def sAfterMapNominal : St := okState (stateAfterMap envNominal none)

/-- Discipline every buffer-related request must obey: the buffer request
carries capture type, mmap memory and count one, and every query, enqueue
and dequeue names buffer index zero. -/
def indexDiscipline : Event → Bool := fun e =>
  match e with
  | Event.reqbufs t m c =>
      t == V4L2_BUF_TYPE_VIDEO_CAPTURE && m == V4L2_MEMORY_MMAP && c == 1
  | Event.querybuf i => i == 0
  | Event.qbuf i => i == 0
  | Event.dqbuf i => i == 0
  | _ => true

/-- A state holding a three-byte mapped region, a dequeued length of two,
and a pre-existing five-byte sink file. -/
def sSinkDemo : St :=
  { initSt (some [9, 9, 9, 9, 9]) with
      camera_params :=
        { initParams with
            buffer := { index := 0, type := 1, memory := 1, length := 2, m_offset := 0 }
          , buffer_start := [1, 2, 3] } }

/-- Result state of the sink write on sSinkDemo in the nominal
environment. -/
def sSinkDemoOut : St := okState (save_to_image envNominal sSinkDemo)

/-- The state after a successful activate_streaming from the nominal setup
state. -/
def sAfterStreamOn : St := okState (activate_streaming envNominal sAfterMapNominal)

/-- C1: for every successful run (exit code zero), the session operations
execute in exactly the order open device, set capture format, request
buffers, query buffer, map buffer, activate streaming, enqueue, dequeue,
deactivate streaming, open sink, write bytes, close device, each exactly
once: the event trace equals fullTrace. -/
theorem spec_C1 (env : Env) (f0 : Option (List Nat))
    (h : (main_run env f0).1 = 0) :
    (main_run env f0).2.events = fullTrace env := by
  by_cases h1 : env.openRet < 0
  · simp [main_run, open_camera_device, set_video_format, request_buffer,
      allocate_buffer, activate_streaming, get_frame, deactivate_streaming,
      save_to_image, close_camera_device, pushEvent, pushErr, initSt, h1] at h
  by_cases h2 : env.sFmtOk
  case neg =>
    simp [main_run, open_camera_device, set_video_format, request_buffer,
      allocate_buffer, activate_streaming, get_frame, deactivate_streaming,
      save_to_image, close_camera_device, pushEvent, pushErr, initSt, h1, h2] at h
  by_cases h3 : env.reqbufsOk
  case neg =>
    simp [main_run, open_camera_device, set_video_format, request_buffer,
      allocate_buffer, activate_streaming, get_frame, deactivate_streaming,
      save_to_image, close_camera_device, pushEvent, pushErr, initSt, h1, h2, h3] at h
  by_cases h4 : env.querybufOk
  case neg =>
    simp [main_run, open_camera_device, set_video_format, request_buffer,
      allocate_buffer, activate_streaming, get_frame, deactivate_streaming,
      save_to_image, close_camera_device, pushEvent, pushErr, initSt, h1, h2, h3, h4] at h
  by_cases h5 : env.mmapOk
  case neg =>
    simp [main_run, open_camera_device, set_video_format, request_buffer,
      allocate_buffer, activate_streaming, get_frame, deactivate_streaming,
      save_to_image, close_camera_device, pushEvent, pushErr, initSt, h1, h2, h3, h4, h5] at h
  by_cases h6 : env.streamonOk
  case neg =>
    simp [main_run, open_camera_device, set_video_format, request_buffer,
      allocate_buffer, activate_streaming, get_frame, deactivate_streaming,
      save_to_image, close_camera_device, pushEvent, pushErr, initSt, h1, h2, h3, h4, h5, h6] at h
  by_cases h7 : env.qbufOk
  case neg =>
    simp [main_run, open_camera_device, set_video_format, request_buffer,
      allocate_buffer, activate_streaming, get_frame, deactivate_streaming,
      save_to_image, close_camera_device, pushEvent, pushErr, initSt, h1, h2, h3, h4, h5, h6, h7] at h
  by_cases h8 : env.dqbufOk
  case neg =>
    simp [main_run, open_camera_device, set_video_format, request_buffer,
      allocate_buffer, activate_streaming, get_frame, deactivate_streaming,
      save_to_image, close_camera_device, pushEvent, pushErr, initSt, h1, h2, h3, h4, h5, h6, h7, h8] at h
  by_cases h9 : env.streamoffOk
  case neg =>
    simp [main_run, open_camera_device, set_video_format, request_buffer,
      allocate_buffer, activate_streaming, get_frame, deactivate_streaming,
      save_to_image, close_camera_device, pushEvent, pushErr, initSt, h1, h2, h3, h4, h5, h6, h7, h8, h9] at h
  by_cases h10 : env.sinkOpenOk
  case neg =>
    simp [main_run, open_camera_device, set_video_format, request_buffer,
      allocate_buffer, activate_streaming, get_frame, deactivate_streaming,
      save_to_image, close_camera_device, pushEvent, pushErr, initSt, h1, h2, h3, h4, h5, h6, h7, h8, h9, h10] at h
  by_cases h11 : env.writeOk <;>
  simp [main_run, open_camera_device, set_video_format, request_buffer,
    allocate_buffer, activate_streaming, get_frame, deactivate_streaming,
    save_to_image, close_camera_device, pushEvent, pushErr, initSt, fullTrace,
    h1, h2, h3, h4, h5, h6, h7, h8, h9, h10, h11]

/-- Witness for C1: the nominal environment yields exit code zero and the
full trace. -/
theorem spec_C1_witness :
    (main_run envNominal none).1 = 0 ∧
    (main_run envNominal none).2.events = fullTrace envNominal :=
  ⟨by decide, spec_C1 envNominal none (by decide)⟩

/-- C2: every run exits with code zero or one; the exit code is zero
exactly when all termination-gating steps succeed; on exit code one a
diagnostic has been written to stderr and the trace is a proper prefix of
the full trace (no later step executed); when the open of the device path
fails, the trace is the open alone, so no control request is ever issued. -/
theorem spec_C2 (env : Env) (f0 : Option (List Nat)) :
    ((main_run env f0).1 = 0 ∨ (main_run env f0).1 = 1) ∧
    ((main_run env f0).1 = 0 ↔ allOk env) ∧
    ((main_run env f0).1 = 1 →
      (main_run env f0).2.stderrLog ≠ [] ∧
      (main_run env f0).2.events =
        (fullTrace env).take (main_run env f0).2.events.length ∧
      (main_run env f0).2.events.length < (fullTrace env).length) ∧
    (env.openRet < 0 → (main_run env f0).2.events = [Event.openDev]) := by
  by_cases h1 : env.openRet < 0
  · have h1n : ¬ (0 ≤ env.openRet) := not_le.mpr h1
    simp [main_run, open_camera_device, set_video_format, request_buffer,
      allocate_buffer, activate_streaming, get_frame, deactivate_streaming,
      save_to_image, close_camera_device, pushEvent, pushErr, initSt, fullTrace,
      allOk, List.take, h1, h1n]
  have h1p : 0 ≤ env.openRet := not_lt.mp h1
  by_cases h2 : env.sFmtOk
  case neg =>
    simp [main_run, open_camera_device, set_video_format, request_buffer,
      allocate_buffer, activate_streaming, get_frame, deactivate_streaming,
      save_to_image, close_camera_device, pushEvent, pushErr, initSt, fullTrace,
      allOk, List.take, h1, h1p, h2]
  by_cases h3 : env.reqbufsOk
  case neg =>
    simp [main_run, open_camera_device, set_video_format, request_buffer,
      allocate_buffer, activate_streaming, get_frame, deactivate_streaming,
      save_to_image, close_camera_device, pushEvent, pushErr, initSt, fullTrace,
      allOk, List.take, h1, h1p, h2, h3]
  by_cases h4 : env.querybufOk
  case neg =>
    simp [main_run, open_camera_device, set_video_format, request_buffer,
      allocate_buffer, activate_streaming, get_frame, deactivate_streaming,
      save_to_image, close_camera_device, pushEvent, pushErr, initSt, fullTrace,
      allOk, List.take, h1, h1p, h2, h3, h4]
  by_cases h5 : env.mmapOk
  case neg =>
    simp [main_run, open_camera_device, set_video_format, request_buffer,
      allocate_buffer, activate_streaming, get_frame, deactivate_streaming,
      save_to_image, close_camera_device, pushEvent, pushErr, initSt, fullTrace,
      allOk, List.take, h1, h1p, h2, h3, h4, h5]
  by_cases h6 : env.streamonOk
  case neg =>
    simp [main_run, open_camera_device, set_video_format, request_buffer,
      allocate_buffer, activate_streaming, get_frame, deactivate_streaming,
      save_to_image, close_camera_device, pushEvent, pushErr, initSt, fullTrace,
      allOk, List.take, h1, h1p, h2, h3, h4, h5, h6]
  by_cases h7 : env.qbufOk
  case neg =>
    simp [main_run, open_camera_device, set_video_format, request_buffer,
      allocate_buffer, activate_streaming, get_frame, deactivate_streaming,
      save_to_image, close_camera_device, pushEvent, pushErr, initSt, fullTrace,
      allOk, List.take, h1, h1p, h2, h3, h4, h5, h6, h7]
  by_cases h8 : env.dqbufOk
  case neg =>
    simp [main_run, open_camera_device, set_video_format, request_buffer,
      allocate_buffer, activate_streaming, get_frame, deactivate_streaming,
      save_to_image, close_camera_device, pushEvent, pushErr, initSt, fullTrace,
      allOk, List.take, h1, h1p, h2, h3, h4, h5, h6, h7, h8]
  by_cases h9 : env.streamoffOk
  case neg =>
    simp [main_run, open_camera_device, set_video_format, request_buffer,
      allocate_buffer, activate_streaming, get_frame, deactivate_streaming,
      save_to_image, close_camera_device, pushEvent, pushErr, initSt, fullTrace,
      allOk, List.take, h1, h1p, h2, h3, h4, h5, h6, h7, h8, h9]
  by_cases h10 : env.sinkOpenOk
  case neg =>
    simp [main_run, open_camera_device, set_video_format, request_buffer,
      allocate_buffer, activate_streaming, get_frame, deactivate_streaming,
      save_to_image, close_camera_device, pushEvent, pushErr, initSt, fullTrace,
      allOk, List.take, h1, h1p, h2, h3, h4, h5, h6, h7, h8, h9, h10]
  by_cases h11 : env.writeOk <;>
  simp [main_run, open_camera_device, set_video_format, request_buffer,
    allocate_buffer, activate_streaming, get_frame, deactivate_streaming,
    save_to_image, close_camera_device, pushEvent, pushErr, initSt, fullTrace,
    allOk, List.take, h1, h1p, h2, h3, h4, h5, h6, h7, h8, h9, h10, h11]

/-- Witness for C2: applying the theorem at the failing-open environment
shows only the open is issued, and at the nominal environment the success
exit code follows from allOk. -/
theorem spec_C2_witness :
    (main_run envFailOpen none).2.events = [Event.openDev] ∧
    (main_run envNominal none).1 = 0 :=
  ⟨(spec_C2 envFailOpen none).2.2.2 (by decide),
   ((spec_C2 envNominal none).2.1).mpr (by decide)⟩


/-- C3: whenever the setup phase through query-and-map succeeds, the mapped
region is all zeros, its length equals the buffer length reported by
VIDIOC_QUERYBUF, and the following activate_streaming step leaves the
region untouched, so the region is still all-zero before the capture. -/
theorem spec_C3 (env : Env) (f0 : Option (List Nat)) (s : St)
    (h : stateAfterMap env f0 = Except.ok s) :
    s.camera_params.buffer_start = List.replicate env.querybufLength 0 ∧
    s.camera_params.buffer_start.length = s.camera_params.buffer.length ∧
    s.camera_params.buffer.length = env.querybufLength ∧
    ∀ s', activate_streaming env s = Except.ok s' →
      s'.camera_params.buffer_start = s.camera_params.buffer_start := by
  by_cases h1 : env.openRet < 0
  · simp [stateAfterMap, open_camera_device, set_video_format, request_buffer,
      allocate_buffer, pushEvent, pushErr, initSt, h1] at h
  by_cases h2 : env.sFmtOk
  case neg =>
    simp [stateAfterMap, open_camera_device, set_video_format, request_buffer,
      allocate_buffer, pushEvent, pushErr, initSt, h1, h2] at h
  by_cases h3 : env.reqbufsOk
  case neg =>
    simp [stateAfterMap, open_camera_device, set_video_format, request_buffer,
      allocate_buffer, pushEvent, pushErr, initSt, h1, h2, h3] at h
  by_cases h4 : env.querybufOk
  case neg =>
    simp [stateAfterMap, open_camera_device, set_video_format, request_buffer,
      allocate_buffer, pushEvent, pushErr, initSt, h1, h2, h3, h4] at h
  by_cases h5 : env.mmapOk
  case neg =>
    simp [stateAfterMap, open_camera_device, set_video_format, request_buffer,
      allocate_buffer, pushEvent, pushErr, initSt, h1, h2, h3, h4, h5] at h
  simp [stateAfterMap, open_camera_device, set_video_format, request_buffer,
    allocate_buffer, pushEvent, pushErr, initSt, h1, h2, h3, h4, h5] at h
  subst h
  simp [activate_streaming, pushEvent, pushErr]
  intro s' hs'
  by_cases h6 : env.streamonOk
  · simp [h6] at hs'
    subst hs'
    rfl
  · simp [h6] at hs'

/-- Witness for C3: in the nominal environment the post-map state has an
all-zero region of the driver-reported length four. -/
theorem spec_C3_witness :
    sAfterMapNominal.camera_params.buffer_start =
      List.replicate envNominal.querybufLength 0 ∧
    sAfterMapNominal.camera_params.buffer.length = envNominal.querybufLength :=
  And.intro
    (spec_C3 envNominal none sAfterMapNominal rfl).1
    (spec_C3 envNominal none sAfterMapNominal rfl).2.2.1

/-- C7: when open, set-format and request-buffers succeed but the
query-and-map step fails (either the buffer query or the mapping), the
process exits with code one, the device handle is still open (no close was
issued), and no streaming-activation request is ever issued. -/
theorem spec_C7 (env : Env) (f0 : Option (List Nat))
    (h1 : 0 ≤ env.openRet) (h2 : env.sFmtOk = true) (h3 : env.reqbufsOk = true)
    (h4 : ¬ (env.querybufOk = true ∧ env.mmapOk = true)) :
    (main_run env f0).1 = 1 ∧
    (main_run env f0).2.deviceOpen = true ∧
    (∀ b, Event.streamOn b ∉ (main_run env f0).2.events) ∧
    Event.closeDev ∉ (main_run env f0).2.events := by
  have h1' : ¬ env.openRet < 0 := not_lt.mpr h1
  by_cases h4a : env.querybufOk
  · have h5 : ¬ env.mmapOk = true := fun hm => h4 ⟨by simpa using h4a, hm⟩
    simp [main_run, open_camera_device, set_video_format, request_buffer,
      allocate_buffer, activate_streaming, get_frame, deactivate_streaming,
      save_to_image, close_camera_device, pushEvent, pushErr, initSt,
      h1', h2, h3, h4a, h5]
  · simp [main_run, open_camera_device, set_video_format, request_buffer,
      allocate_buffer, activate_streaming, get_frame, deactivate_streaming,
      save_to_image, close_camera_device, pushEvent, pushErr, initSt,
      h1', h2, h3, h4a]

/-- Witness for C7: with a failing VIDIOC_QUERYBUF after a good setup the
process exits one and the device handle is left open. -/
theorem spec_C7_witness :
    (main_run envQuerybufFail none).1 = 1 ∧
    (main_run envQuerybufFail none).2.deviceOpen = true :=
  And.intro
    (spec_C7 envQuerybufFail none (by decide) (by decide) (by decide) (by decide)).1
    (spec_C7 envQuerybufFail none (by decide) (by decide) (by decide) (by decide)).2.1


/-- Helper: a driver write into the mapped region preserves its length. -/
theorem writeBytesAtStart_length (region new : List Nat) :
    (writeBytesAtStart region new).length = region.length := by
  simp [writeBytesAtStart]
  omega

/-- C4: a successful run latches exactly width 1920, height 1080, MJPEG,
REC709, and (when the dequeued length fits the mapped region and the write
succeeds) the output file holds exactly buffer.length bytes taken verbatim
from the start of the mapped region, the file being created when absent. -/
theorem spec_C4 (env : Env) (f0 : Option (List Nat))
    (hok : allOk env) (hw : env.writeOk = true)
    (hlen : env.dqbufLength ≤ env.querybufLength) :
    (main_run env f0).2.camera_params.capture_format =
      { type := V4L2_BUF_TYPE_VIDEO_CAPTURE
      , pix := { width := 1920, height := 1080
               , pixelformat := V4L2_PIX_FMT_MJPEG
               , colorspace := V4L2_COLORSPACE_REC709 } } ∧
    (main_run env f0).2.imageFile.isSome = true ∧
    (main_run env f0).2.camera_params.buffer.length = env.dqbufLength ∧
    (main_run env f0).2.imageFile =
      some ((main_run env f0).2.camera_params.buffer_start.take env.dqbufLength ++
        (f0.getD []).drop env.dqbufLength) ∧
    (f0 = none →
      (main_run env f0).2.imageFile =
        some ((main_run env f0).2.camera_params.buffer_start.take env.dqbufLength) ∧
      ((main_run env f0).2.imageFile.getD []).length = env.dqbufLength) := by
  obtain ⟨h1, h2, h3, h4, h5, h6, h7, h8, h9, h10⟩ := hok
  have h1' : ¬ env.openRet < 0 := not_lt.mpr h1
  have hB : (writeBytesAtStart (List.replicate env.querybufLength 0) env.frameData).length
      = env.querybufLength := by
    rw [writeBytesAtStart_length]
    simp
  have htake : ((writeBytesAtStart (List.replicate env.querybufLength 0)
      env.frameData).take env.dqbufLength).length = env.dqbufLength := by
    rw [List.length_take, hB]
    omega
  simp [main_run, open_camera_device, set_video_format, request_buffer,
    allocate_buffer, activate_streaming, get_frame, deactivate_streaming,
    save_to_image, close_camera_device, pushEvent, pushErr, initSt,
    h1', h2, h3, h4, h5, h6, h7, h8, h9, h10, hw, htake]
  rintro rfl
  simp

/-- Witness for C4: nominal run writes the three dequeued bytes verbatim. -/
theorem spec_C4_witness :
    (main_run envNominal none).2.camera_params.buffer.length = envNominal.dqbufLength ∧
    (main_run envNominal none).2.imageFile =
      some ((main_run envNominal none).2.camera_params.buffer_start.take
        envNominal.dqbufLength) :=
  And.intro
    (spec_C4 envNominal none (by decide) (by decide) (by decide)).2.2.1
    ((spec_C4 envNominal none (by decide) (by decide) (by decide)).2.2.2.2 rfl).1

/-- C5: the enqueue-failure run and the dequeue-failure run are both fatal,
but they emit the same stderr string VIDIOC_QBUF: in the dequeue-failure
run the enqueue has already been issued and succeeded, yet the diagnostic
still reads VIDIOC_QBUF, so the message does not identify which of the two
control requests failed. -/
theorem spec_C5_same_diagnostic :
    (main_run envDqbufFail none).1 = 1 ∧
    (main_run envDqbufFail none).2.stderrLog = ["VIDIOC_QBUF"] ∧
    Event.qbuf 0 ∈ (main_run envDqbufFail none).2.events ∧
    Event.dqbuf 0 ∈ (main_run envDqbufFail none).2.events ∧
    (main_run envQbufFail none).1 = 1 ∧
    (main_run envQbufFail none).2.stderrLog = ["VIDIOC_QBUF"] ∧
    Event.dqbuf 0 ∉ (main_run envQbufFail none).2.events := by decide

/-- C6 counterexample: when the byte write at the sink fails (its return
value is ignored by the source), the process still exits with code zero,
reports success on stdout, and leaves the freshly created file empty —
refuting that a failing write aborts with exit code one. -/
theorem spec_C6_counterexample :
    (main_run envWriteFail none).1 = 0 ∧
    (main_run envWriteFail none).2.stdoutLog ≠ [] ∧
    (main_run envWriteFail none).2.imageFile = some [] := by decide

/-- C6 amended: after a fully successful capture, a failure to open the
sink path is detected and terminal (exit one, no success report, a stderr
diagnostic), while a failure of the write syscall itself is not detected:
the run exits zero, reports success, and the file keeps its prior bytes. -/
theorem spec_C6_amended (env : Env) (f0 : Option (List Nat))
    (h1 : 0 ≤ env.openRet) (h2 : env.sFmtOk = true) (h3 : env.reqbufsOk = true)
    (h4 : env.querybufOk = true) (h5 : env.mmapOk = true)
    (h6 : env.streamonOk = true) (h7 : env.qbufOk = true)
    (h8 : env.dqbufOk = true) (h9 : env.streamoffOk = true) :
    (env.sinkOpenOk = false →
      (main_run env f0).1 = 1 ∧ (main_run env f0).2.stdoutLog = [] ∧
      (main_run env f0).2.stderrLog ≠ []) ∧
    (env.sinkOpenOk = true → env.writeOk = false →
      (main_run env f0).1 = 0 ∧ (main_run env f0).2.stdoutLog ≠ [] ∧
      (main_run env f0).2.imageFile = some (f0.getD [])) := by
  have h1' : ¬ env.openRet < 0 := not_lt.mpr h1
  by_cases h10 : env.sinkOpenOk
  · by_cases h11 : env.writeOk <;>
    simp [main_run, open_camera_device, set_video_format, request_buffer,
      allocate_buffer, activate_streaming, get_frame, deactivate_streaming,
      save_to_image, close_camera_device, pushEvent, pushErr, initSt,
      h1', h2, h3, h4, h5, h6, h7, h8, h9, h10, h11]
  · simp [main_run, open_camera_device, set_video_format, request_buffer,
      allocate_buffer, activate_streaming, get_frame, deactivate_streaming,
      save_to_image, close_camera_device, pushEvent, pushErr, initSt,
      h1', h2, h3, h4, h5, h6, h7, h8, h9, h10]

/-- Witness for the amended C6: a failing sink open exits one, a failing
write still exits zero. -/
theorem spec_C6_amended_witness :
    (main_run envSinkOpenFail none).1 = 1 ∧
    (main_run envWriteFail none).1 = 0 :=
  And.intro
    ((spec_C6_amended envSinkOpenFail none (by decide) (by decide) (by decide)
      (by decide) (by decide) (by decide) (by decide) (by decide) (by decide)).1
      (by decide)).1
    (((spec_C6_amended envWriteFail none (by decide) (by decide) (by decide)
      (by decide) (by decide) (by decide) (by decide) (by decide) (by decide)).2
      (by decide) (by decide)).1)

/-- C8: in every run, every buffer-request event carries capture type,
mmap memory and count one, and every buffer query, enqueue and dequeue
names buffer index zero — index zero is the only buffer identity used. -/
theorem spec_C8 (env : Env) (f0 : Option (List Nat)) :
    (main_run env f0).2.events.all indexDiscipline = true := by
  by_cases h1 : env.openRet < 0
  · simp [main_run, open_camera_device, set_video_format, request_buffer,
      allocate_buffer, activate_streaming, get_frame, deactivate_streaming,
      save_to_image, close_camera_device, pushEvent, pushErr, initSt,
      indexDiscipline, h1]
  by_cases h2 : env.sFmtOk
  case neg =>
    simp [main_run, open_camera_device, set_video_format, request_buffer,
      allocate_buffer, activate_streaming, get_frame, deactivate_streaming,
      save_to_image, close_camera_device, pushEvent, pushErr, initSt,
      indexDiscipline, h1, h2]
  by_cases h3 : env.reqbufsOk
  case neg =>
    simp [main_run, open_camera_device, set_video_format, request_buffer,
      allocate_buffer, activate_streaming, get_frame, deactivate_streaming,
      save_to_image, close_camera_device, pushEvent, pushErr, initSt,
      indexDiscipline, h1, h2, h3]
  by_cases h4 : env.querybufOk
  case neg =>
    simp [main_run, open_camera_device, set_video_format, request_buffer,
      allocate_buffer, activate_streaming, get_frame, deactivate_streaming,
      save_to_image, close_camera_device, pushEvent, pushErr, initSt,
      indexDiscipline, h1, h2, h3, h4]
  by_cases h5 : env.mmapOk
  case neg =>
    simp [main_run, open_camera_device, set_video_format, request_buffer,
      allocate_buffer, activate_streaming, get_frame, deactivate_streaming,
      save_to_image, close_camera_device, pushEvent, pushErr, initSt,
      indexDiscipline, h1, h2, h3, h4, h5]
  by_cases h6 : env.streamonOk
  case neg =>
    simp [main_run, open_camera_device, set_video_format, request_buffer,
      allocate_buffer, activate_streaming, get_frame, deactivate_streaming,
      save_to_image, close_camera_device, pushEvent, pushErr, initSt,
      indexDiscipline, h1, h2, h3, h4, h5, h6]
  by_cases h7 : env.qbufOk
  case neg =>
    simp [main_run, open_camera_device, set_video_format, request_buffer,
      allocate_buffer, activate_streaming, get_frame, deactivate_streaming,
      save_to_image, close_camera_device, pushEvent, pushErr, initSt,
      indexDiscipline, h1, h2, h3, h4, h5, h6, h7]
  by_cases h8 : env.dqbufOk
  case neg =>
    simp [main_run, open_camera_device, set_video_format, request_buffer,
      allocate_buffer, activate_streaming, get_frame, deactivate_streaming,
      save_to_image, close_camera_device, pushEvent, pushErr, initSt,
      indexDiscipline, h1, h2, h3, h4, h5, h6, h7, h8]
  by_cases h9 : env.streamoffOk
  case neg =>
    simp [main_run, open_camera_device, set_video_format, request_buffer,
      allocate_buffer, activate_streaming, get_frame, deactivate_streaming,
      save_to_image, close_camera_device, pushEvent, pushErr, initSt,
      indexDiscipline, h1, h2, h3, h4, h5, h6, h7, h8, h9]
  by_cases h10 : env.sinkOpenOk
  case neg =>
    simp [main_run, open_camera_device, set_video_format, request_buffer,
      allocate_buffer, activate_streaming, get_frame, deactivate_streaming,
      save_to_image, close_camera_device, pushEvent, pushErr, initSt,
      indexDiscipline, h1, h2, h3, h4, h5, h6, h7, h8, h9, h10]
  by_cases h11 : env.writeOk <;>
  simp [main_run, open_camera_device, set_video_format, request_buffer,
    allocate_buffer, activate_streaming, get_frame, deactivate_streaming,
    save_to_image, close_camera_device, pushEvent, pushErr, initSt,
    indexDiscipline, h1, h2, h3, h4, h5, h6, h7, h8, h9, h10, h11]

/-- C9: activate_streaming zeroes the whole buffer descriptor (so the
length and offset obtained from the buffer query are discarded there) and
leaves the mapped region alone; in a fully successful run the memory map
was created with the query-reported length while the byte count handed to
the sink write is the length rewritten by the dequeue. -/
theorem spec_C9 (env : Env) (f0 : Option (List Nat)) (s s' : St)
    (hact : activate_streaming env s = Except.ok s')
    (hok : allOk env) :
    (s'.camera_params.buffer.length = 0 ∧ s'.camera_params.buffer.m_offset = 0 ∧
     s'.camera_params.buffer_start = s.camera_params.buffer_start) ∧
    Event.mmapCall env.querybufLength env.querybufOffset ∈ (main_run env f0).2.events ∧
    (∀ l o, Event.mmapCall l o ∈ (main_run env f0).2.events → l = env.querybufLength) ∧
    Event.sinkWrite env.dqbufLength ∈ (main_run env f0).2.events ∧
    (∀ n, Event.sinkWrite n ∈ (main_run env f0).2.events → n = env.dqbufLength) := by
  obtain ⟨h1, h2, h3, h4, h5, h6, h7, h8, h9, h10⟩ := hok
  have h1' : ¬ env.openRet < 0 := not_lt.mpr h1
  constructor
  · simp [activate_streaming, pushEvent, pushErr, h6] at hact
    subst hact
    exact ⟨rfl, rfl, rfl⟩
  · by_cases h11 : env.writeOk <;>
    simp [main_run, open_camera_device, set_video_format, request_buffer,
      allocate_buffer, activate_streaming, get_frame, deactivate_streaming,
      save_to_image, close_camera_device, pushEvent, pushErr, initSt,
      h1', h2, h3, h4, h5, h6, h7, h8, h9, h10, h11]

/-- Witness for C9: in the nominal run the descriptor is zeroed after
stream-on and the sink write count is the dequeued length three, while the
map was created with the queried length four. -/
theorem spec_C9_witness :
    sAfterStreamOn.camera_params.buffer.length = 0 ∧
    Event.sinkWrite envNominal.dqbufLength ∈ (main_run envNominal none).2.events :=
  And.intro
    (spec_C9 envNominal none sAfterMapNominal sAfterStreamOn rfl (by decide)).1.1
    (spec_C9 envNominal none sAfterMapNominal sAfterStreamOn rfl (by decide)).2.2.2.1

/-- C10: the sink open creates but never truncates, so a successful write
over a pre-existing file leaves every byte beyond the written length at its
previous value; whenever the old file is longer than the bytes written, the
resulting file differs from the captured frame bytes. -/
theorem spec_C10 (env : Env) (s : St) (old : List Nat) (s' : St)
    (h1 : env.sinkOpenOk = true) (h2 : env.writeOk = true)
    (h3 : s.imageFile = some old)
    (h : save_to_image env s = Except.ok s') :
    s'.imageFile =
      some (s.camera_params.buffer_start.take s.camera_params.buffer.length ++
        old.drop (s.camera_params.buffer_start.take s.camera_params.buffer.length).length) ∧
    ((s.camera_params.buffer_start.take s.camera_params.buffer.length).length < old.length →
      s'.imageFile ≠ some (s.camera_params.buffer_start.take s.camera_params.buffer.length)) := by
  simp [save_to_image, pushEvent, pushErr, h1, h2, h3] at h
  subst h
  constructor
  · simp [List.length_take]
  · intro hlt hEq
    simp only [St.imageFile, Option.some.injEq] at hEq
    have hlength := congrArg List.length hEq
    simp [List.length_take, List.length_append, List.length_drop] at hlength hlt
    omega

/-- Witness for C10: writing two bytes over a five-byte file keeps the old
tail, and the result differs from the two captured bytes. -/
theorem spec_C10_witness :
    sSinkDemoOut.imageFile = some [1, 2, 9, 9, 9] ∧
    sSinkDemoOut.imageFile ≠ some [1, 2] :=
  And.intro
    (spec_C10 envNominal sSinkDemo [9, 9, 9, 9, 9] sSinkDemoOut rfl rfl rfl rfl).1
    ((spec_C10 envNominal sSinkDemo [9, 9, 9, 9, 9] sSinkDemoOut rfl rfl rfl rfl).2
      (by decide))

end OV5647
